import Mathlib

/-!
Verification of the `nolife` scoping primitive (src/src/lib.rs).

Part A embeds the suspension machinery that is present in `lib.rs`:
the shared suspension slot `State`, the suspension object
`FrozenFuture`, the `freeze` constructor on `TimeCapsule`, and the
`poll` implementation of the `Future` trait for `FrozenFuture`.

The raw pointer stored in the slot (`*mut Family`) is modelled by an
abstract pointer type `Ptr`; a null pointer is `Option.none` and a
non-null pointer is `Option.some p`.  A Rust panic is modelled by the
result `Option.none` of the whole operation.

Part B models the scope owner and its `enter` operation.  The files
`box_scope.rs` and `scope.rs` in which they live are not part of the
sources, only their callers (the tests in `lib.rs`) are, so `enter` is
modelled from the specification of the scope owner, checked against
the behaviour the tests in `lib.rs` assert.
-/

namespace Nolife

/-- Result of polling a future, from `std::task::Poll` with output `()`. -/
inductive PollRes where
  | pending : PollRes
  | ready : PollRes
deriving DecidableEq, Repr

/-- The shared suspension slot `State<T>`: a cell holding a possibly null
pointer `*mut <T as Family>::Family`.  `none` is the null pointer. -/
structure State (Ptr : Type) where
  slot : Option Ptr
deriving DecidableEq, Repr

/-- `State::default`: the slot starts as the null pointer. -/
def State.default (Ptr : Type) : State Ptr := ⟨none⟩

/-- The suspension object `FrozenFuture`: its `mut_ref` cell holds the
captured borrow until the first poll takes it out. -/
structure FrozenFuture (Ptr : Type) where
  mut_ref : Option Ptr
deriving DecidableEq, Repr

/-- `TimeCapsule::freeze`: wraps the given borrow into a `FrozenFuture`
together with the pointer to the shared slot.  The slot itself is part
of the state threaded through, and `freeze` returns it untouched: the
source constructor only builds the future value. -/
def freeze {Ptr : Type} (t : Ptr) (s : State Ptr) : FrozenFuture Ptr × State Ptr :=
  (⟨some t⟩, s)

/-- `<FrozenFuture as Future>::poll`.  Returns `none` when the source
panics (the `expect` on a taken `mut_ref`), otherwise the poll result,
the future after the call (its `mut_ref` cell may have been taken) and
the slot after the call. -/
def poll {Ptr : Type} (f : FrozenFuture Ptr) (s : State Ptr) :
    Option (PollRes × FrozenFuture Ptr × State Ptr) :=
  match s.slot with
  | none =>
    match f.mut_ref with
    | none => none
    | some p => some (.pending, ⟨none⟩, ⟨some p⟩)
  | some _ => some (.ready, f, ⟨none⟩)

/-- Result of driving the computation one step: it either reaches its
next `freeze`, exposing its local state, or panics, or terminates. -/
inductive StepRes (σ : Type) where
  | frozen (x : σ)
  | panicked
  | finished
deriving DecidableEq, Repr

/-- A computation as seen by the scope owner: what happens when it is
driven from its start to the first freeze, and what happens when it is
resumed past a freeze whose exposed state now holds `x` (the inspector
may have mutated it). -/
structure Computation (σ : Type) where
  start : StepRes σ
  resume : σ → StepRes σ

/-- Modelled from the spec: the scope owner state (box_scope.rs, which
defines `BoxScope`, is not among the sources).  `unstarted` is a freshly
constructed scope, `suspended x` is a scope whose computation sits at a
freeze whose exposed data currently holds `x`, and `poisoned` is the
absorbing failure state. -/
inductive ScopeSt (σ : Type) where
  | unstarted
  | suspended (x : σ)
  | poisoned
deriving DecidableEq, Repr

/-- Outcome of a caller-supplied inspector run on the frozen data `x`:
either a result together with the (possibly mutated) data, or a panic
leaving the (possibly mutated) data behind. -/
inductive InspRes (R σ : Type) where
  | ok (r : R) (x : σ)
  | panicked (x : σ)
deriving DecidableEq, Repr

/-- The failure channels of `enter`: entering a poisoned scope, a panic
of the computation, a panic of the inspector, or the computation
terminating instead of freezing again. -/
inductive EnterErr where
  | poisonedScope
  | computationPanic
  | inspectorPanic
  | computationFinished
deriving DecidableEq, Repr

/-- Run the inspector on freshly frozen data `x`; either way the scope
stays alive, suspended at the freeze whose data the inspector saw. -/
def runInspector {R σ : Type} (f : σ → InspRes R σ) (x : σ) :
    Except EnterErr R × ScopeSt σ :=
  match f x with
  | .ok r x' => (.ok r, .suspended x')
  | .panicked x' => (.error .inspectorPanic, .suspended x')

/-- Modelled from the spec: `BoxScope::enter` (box_scope.rs is not among
the sources; only its callers, the tests in lib.rs, are).  Entering a
poisoned scope fails immediately without touching the computation;
otherwise the driver resumes the computation to its next freeze — a
computation panic or termination poisons the scope and fails — and the
inspector runs on the frozen data; an inspector panic propagates but
leaves the scope alive and suspended, so the generation it failed on is
consumed and the next `enter` resumes past it. -/
def enter {R σ : Type} (c : Computation σ) (st : ScopeSt σ)
    (f : σ → InspRes R σ) : Except EnterErr R × ScopeSt σ :=
  match st with
  | .poisoned => (.error .poisonedScope, .poisoned)
  | .unstarted =>
    match c.start with
    | .panicked => (.error .computationPanic, .poisoned)
    | .finished => (.error .computationFinished, .poisoned)
    | .frozen x => runInspector f x
  | .suspended x =>
    match c.resume x with
    | .panicked => (.error .computationPanic, .poisoned)
    | .finished => (.error .computationFinished, .poisoned)
    | .frozen y => runInspector f y

/-- Whether an `enter` call was a successful step. -/
def isSuccess {R σ : Type} (p : Except EnterErr R × ScopeSt σ) : Bool :=
  match p.1 with
  | .ok _ => true
  | .error _ => false

/-- The modulus of u32 arithmetic. -/
def u32Mod : Nat := 2 ^ 32

/-- The counter computation of the tests `produce_output` and
`panicking_enter`: freeze a u32 counter starting at 0, increment it
after each resume, and freeze it again. -/
def counterComputation : Computation Nat where
  start := .frozen 0
  resume := fun x => .frozen ((x + 1) % u32Mod)

/-- The computation of the test `panicking_future`: it panics on its
very first resume, before ever freezing. -/
def panickingComputation : Computation Nat where
  start := .panicked
  resume := fun _ => .panicked

/-- Inspector that reads the frozen counter without mutating it. -/
def observe : Nat → InspRes Nat Nat := fun x => .ok x x

/-- Inspector that adds `k` to the frozen counter (u32 arithmetic), as
the third `enter` of `produce_output` adds 100. -/
def addInspector (k : Nat) : Nat → InspRes Unit Nat :=
  fun x => .ok () ((x + k) % u32Mod)

/-- Inspector that panics without mutating, as in `panicking_enter`. -/
def panickingInspector : Nat → InspRes Nat Nat := fun x => .panicked x

/-- Run `n` consecutive `enter` calls with the observing inspector on
the counter computation, collecting the values the successful calls
observe and the final scope state. -/
def runObserved : Nat → ScopeSt Nat → List Nat × ScopeSt Nat
  | 0, st => ([], st)
  | n + 1, st =>
    match enter counterComputation st observe with
    | (.ok r, st') =>
      let p := runObserved n st'
      (r :: p.1, p.2)
    | (.error _, st') => runObserved n st'

/-- Lifetimes, abstractly: the type-family machinery maps a lifetime to
a concrete type; only the mapping matters, so lifetimes are opaque
labels here. -/
def Lifetime : Type := Nat

/-- The type assignment of the blanket `Family` implementation for
`SingleFamily<T>`: every lifetime is assigned the type `T` itself. -/
def SingleFamily (T : Type) : Lifetime → Type := fun _ => T

end Nolife

namespace Nolife

/-- C3: first poll of a fresh frozen future on an empty slot stores the
borrow and is pending; the second poll clears the slot and is ready. -/
theorem poll_first_stores_second_clears (Ptr : Type) (t : Ptr) :
    poll (freeze t (State.default Ptr)).1 (freeze t (State.default Ptr)).2
      = some (.pending, ⟨none⟩, ⟨some t⟩) ∧
    poll (⟨none⟩ : FrozenFuture Ptr) (⟨some t⟩ : State Ptr)
      = some (.ready, ⟨none⟩, ⟨none⟩) := by
  exact ⟨rfl, rfl⟩

/-- C4: a third poll of the same future (its borrow already taken by the
first poll, the slot already cleared by the second) panics. -/
theorem poll_third_time_panics (Ptr : Type) :
    poll (⟨none⟩ : FrozenFuture Ptr) (⟨none⟩ : State Ptr) = none := by
  exact rfl

/-- C5 counterexample: polling a second, distinct frozen future while the
slot still holds the first future's borrow does not panic; it quietly
clears the slot and reports ready. -/
theorem poll_second_future_no_panic :
    poll (freeze 1 (State.default Nat)).1 (⟨some 0⟩ : State Nat)
      = some (.ready, ⟨some 1⟩, ⟨none⟩) := by
  exact rfl

/-- C5 amended: polling a fresh frozen future while the slot is non-empty
(holding another future's borrow) completes quietly: it clears the slot
and reports ready without storing the new borrow and without a panic. -/
theorem poll_second_future_quietly_ready (Ptr : Type) (t p : Ptr) :
    poll (freeze t (State.default Ptr)).1 (⟨some p⟩ : State Ptr)
      = some (.ready, ⟨some t⟩, ⟨none⟩) := by
  exact rfl

/-- C8: the slot starts empty; any non-panicking poll step that leaves the
slot holding a pointer found it empty, any step that leaves it empty and
stored nothing found it holding one, and a step never goes from holding
to holding. -/
theorem slot_alternates {Ptr : Type} (f f' : FrozenFuture Ptr)
    (s s' : State Ptr) (r : PollRes)
    (h : poll f s = some (r, f', s')) :
    (State.default Ptr).slot = none ∧
    (s'.slot.isSome → s.slot = none) ∧
    (s.slot.isSome → s'.slot = none) ∧
    ¬(s.slot.isSome ∧ s'.slot.isSome) := by
  refine ⟨rfl, ?_, ?_, ?_⟩ <;>
    · cases hs : s.slot with
      | none =>
        cases hf : f.mut_ref with
        | none => simp [poll, hs, hf] at h
        | some p =>
          simp [poll, hs, hf] at h
          simp [hs, ← h.2.2]
      | some p =>
        simp [poll, hs] at h
        simp [hs, ← h.2.2]

/-- C8 witness: the alternation facts at a concrete poll step that clears
a slot holding the pointer 5. -/
theorem slot_alternates_witness :
    (State.default Nat).slot = none ∧
    ((State.default Nat).slot.isSome → (⟨some 5⟩ : State Nat).slot = none) ∧
    ((⟨some 5⟩ : State Nat).slot.isSome → (State.default Nat).slot = none) ∧
    ¬((⟨some 5⟩ : State Nat).slot.isSome ∧ (State.default Nat).slot.isSome) :=
  slot_alternates ⟨none⟩ ⟨none⟩ ⟨some 5⟩ (State.default Nat) .ready rfl

/-- C10: `freeze` never modifies the shared slot: the slot contents after
a `freeze` call equal its contents before, whatever state it is in. -/
theorem freeze_preserves_slot (Ptr : Type) (t : Ptr) (s : State Ptr) :
    (freeze t s).2 = s := by
  exact rfl

/-- From a scope suspended at counter value `k`, `n` observing `enter`
calls see `k+1, …, k+n` and leave the scope suspended at `k+n`. -/
theorem runObserved_suspended (n k : Nat) (h : k + n < u32Mod) :
    runObserved n (.suspended k) = (List.range' (k + 1) n, .suspended (k + n)) := by
  induction n generalizing k with
  | zero => simp [runObserved]
  | succ n ih =>
    have hk1 : k + 1 < u32Mod := by omega
    have hstep : enter counterComputation (.suspended k) observe
        = (.ok (k + 1), .suspended (k + 1)) := by
      simp [enter, counterComputation, observe, runInspector,
        Nat.mod_eq_of_lt hk1]
    have ih1 := ih (k + 1) (by omega)
    simp [runObserved, hstep, ih1, List.range'_succ]
    omega

/-- C1: starting a fresh scope on the counter computation, `N` successful
`enter` calls with an observing inspector see `0, 1, …, N−1` in order
(for `N` within the u32 range). -/
theorem sequential_progress (N : Nat) (h : N ≤ u32Mod) :
    (runObserved N .unstarted).1 = List.range N := by
  cases N with
  | zero => simp [runObserved]
  | succ n =>
    have hstep : enter counterComputation .unstarted observe
        = (.ok 0, .suspended 0) := rfl
    have hrest := runObserved_suspended n 0 (by omega)
    simp [runObserved, hstep, hrest, List.range_eq_range', List.range'_succ]

/-- C1 witness: three `enter` calls observe `[0, 1, 2]`. -/
theorem sequential_progress_witness :
    3 ≤ u32Mod ∧ (runObserved 3 .unstarted).1 = List.range 3 :=
  ⟨by norm_num [u32Mod], sequential_progress 3 (by norm_num [u32Mod])⟩

/-- C2: if the inspector adds 100 to the frozen counter, the mutation is
visible to the computation: from a scope suspended at `k`, the add-100
`enter` sees `k+1` and leaves `k+101` behind, and the next `enter`
observes `k+102`, the mutated value plus the computation's own
increment. -/
theorem mutation_visibility (k : Nat) (h : k + 102 < u32Mod) :
    enter counterComputation (.suspended k) (addInspector 100)
      = (.ok (), .suspended (k + 101)) ∧
    (enter counterComputation (.suspended (k + 101)) observe).1
      = .ok (k + 102) := by
  constructor
  · have h1 : (k + 1) % u32Mod = k + 1 := Nat.mod_eq_of_lt (by omega)
    have h2 : (k + 1 + 100) % u32Mod = k + 101 := by
      rw [Nat.mod_eq_of_lt (by omega)]
    simp [enter, counterComputation, addInspector, runInspector, h1, h2]
  · have h1 : (k + 101 + 1) % u32Mod = k + 102 := by
      rw [Nat.mod_eq_of_lt (by omega)]
    simp [enter, counterComputation, observe, runInspector, h1]

/-- C2 witness: at counter value 0, the add-100 `enter` leaves 101 and
the next `enter` observes 102. -/
theorem mutation_visibility_witness :
    enter counterComputation (.suspended 0) (addInspector 100)
      = (.ok (), .suspended 101) ∧
    (enter counterComputation (.suspended 101) observe).1 = .ok 102 :=
  mutation_visibility 0 (by norm_num [u32Mod])

/-- C6: on the computation that panics on its first resume, the first
`enter` propagates the panic and poisons the scope; any `enter` on a
poisoned scope fails immediately, whatever the computation and the
inspector; and no `enter` on this scope, from any state, is ever a
successful step. -/
theorem computation_failure_poisons :
    (∀ f : Nat → InspRes Nat Nat,
      enter panickingComputation .unstarted f
        = (.error .computationPanic, .poisoned)) ∧
    (∀ (σ R : Type) (c : Computation σ) (f : σ → InspRes R σ),
      enter c .poisoned f = (.error .poisonedScope, .poisoned)) ∧
    (∀ (st : ScopeSt Nat) (f : Nat → InspRes Nat Nat),
      isSuccess (enter panickingComputation st f) = false) := by
  refine ⟨fun f => rfl, fun σ R c f => rfl, fun st f => ?_⟩
  cases st <;> rfl

/-- C7: replay of the test `panicking_enter`: the first `enter` observes
0; a second `enter` whose inspector panics fails without poisoning and
leaves the scope suspended at 1; the third `enter` observes 2 — the
value generation 2 would have produced, plus one further increment. -/
theorem inspector_failure_skips_generation :
    enter counterComputation .unstarted observe = (.ok 0, .suspended 0) ∧
    enter counterComputation (.suspended 0) panickingInspector
      = (.error .inspectorPanic, .suspended 1) ∧
    enter counterComputation (.suspended 1) observe
      = (.ok 2, .suspended 2) := by
  refine ⟨rfl, ?_, ?_⟩ <;>
    simp [enter, counterComputation, panickingInspector, observe,
      runInspector, u32Mod]

/-- C9: the blanket family for lifetime-free payloads is constant in the
lifetime: `SingleFamily T` assigns the same type under any two lifetimes,
namely `T` itself. -/
theorem single_family_constant_in_lifetime (T : Type) (a b : Lifetime) :
    SingleFamily T a = SingleFamily T b ∧ SingleFamily T a = T :=
  ⟨rfl, rfl⟩

end Nolife
